import Mathlib

/-!
Shallow embedding of the SimpleTodoApp core: the todo query/pagination layer
(`todo_service/logic/mock_todo_service.py` and `todo_service/logic/todo_service.py`),
the entity update logic (`todo_service/entities/*.py`), and the authentication
flow (`user_service/logic/user_service.py`, `user_service/controller/user_controller.py`,
`common/utils/token_generator.py`).

Python machine details that matter for the embedding:
  * `list[a:b]` is `(l.drop a).take (b - a)`;
  * `sorted(l, key=k, reverse=r)` is a stable sort on the key, with `reverse=True`
    flipping every comparison while keeping the original order of equal keys;
  * SQLAlchemy `query.where(p).order_by(f).offset(o).limit(n).all()` is modelled as
    filter, then a stable sort of the whole filtered set, then drop/take;
  * `one_or_none()` returns the unique row, `None` for no row, and raises
    `MultipleResultsFound` otherwise (modelled as `Except`).
-/

namespace SimpleTodoApp

/-- Modelled from the spec: `todo_service/enums/todo_priority.py` is not under `src/`.
The spec's data model declares `priority` as the enum `LOW | MEDIUM | HIGH` whose
values are looked up by `Priority(attr_value.upper())` in the mock service, and whose
natural ordering is the enum ordinal (declaration order LOW, MEDIUM, HIGH). -/
inductive Priority where
  | LOW
  | MEDIUM
  | HIGH
deriving DecidableEq

/-- Enum ordinal of a priority (declaration order), the spec's natural ordering. -/
def Priority.ord : Priority → Nat
  | .LOW => 0
  | .MEDIUM => 1
  | .HIGH => 2

/-- The string label of each member, as stored by the relational `Enum(Priority)`
column and used for value lookup. -/
def Priority.label : Priority → String
  | .LOW => "LOW"
  | .MEDIUM => "MEDIUM"
  | .HIGH => "HIGH"

/-- `Priority(s)`: value lookup in the enum, `none` when the lookup raises `ValueError`. -/
def Priority.parse? (s : String) : Option Priority :=
  if s = "LOW" then some .LOW
  else if s = "MEDIUM" then some .MEDIUM
  else if s = "HIGH" then some .HIGH
  else none

/-- The `order_by` parameter: `Literal["title", "description", "status", "priority"]`
from `todo_service/dal/pagination.py`. -/
inductive OrderBy where
  | title
  | description
  | status
  | priority
deriving DecidableEq

/-- `MockTodoEntity` (`todo_service/entities/mock_todo_entity.py`): id, title,
description, status, priority. -/
structure MockTodoEntity where
  id : String
  title : String
  description : String
  status : String
  priority : Priority
deriving DecidableEq

/-- `TodoEntity` (`todo_service/entities/todo_entity.py`): the relational row with
the same five columns. -/
structure TodoEntity where
  id : String
  title : String
  description : String
  status : String
  priority : Priority
deriving DecidableEq

/-- `TodoBoundary` (`todo_service/boundaries/todo_boundary.py`). -/
structure TodoBoundary where
  id : String
  title : String
  description : String
  status : String
  priority : Priority
deriving DecidableEq

/-- `TodoBoundary.from_entity` on a mock entity: `model_validate` over the entity's
fields, a field-for-field copy. -/
def TodoBoundary.from_entity (e : MockTodoEntity) : TodoBoundary :=
  ⟨e.id, e.title, e.description, e.status, e.priority⟩

/-- `TodoBoundary.from_entity` on a relational entity. -/
def TodoBoundary.fromTodoEntity (e : TodoEntity) : TodoBoundary :=
  ⟨e.id, e.title, e.description, e.status, e.priority⟩

/-- `Pagination` (`todo_service/dal/pagination.py`): `page ≥ 1` and `size ≥ 1` are
enforced by pydantic (`gt=0`); defaults `page=1`, `size=10`, `order_by="title"`,
`desc=False`. -/
structure Pagination where
  page : Nat := 1
  size : Nat := 10
  order_by : OrderBy := .title
  desc : Bool := false
deriving DecidableEq

/-- `Pagination.offset`: `(page - 1) * size`. -/
def Pagination.offset (p : Pagination) : Nat :=
  (p.page - 1) * p.size

/-- Strict lexicographic order on code-point lists, Python's string `<`. -/
def strLtChars : List Char → List Char → Bool
  | [], [] => false
  | [], _ :: _ => true
  | _ :: _, [] => false
  | a :: as, b :: bs =>
    if a.toNat < b.toNat then true
    else if b.toNat < a.toNat then false
    else strLtChars as bs

/-- Lexicographic `≤` on strings as a boolean, Python's string comparison. -/
def strLe (a b : String) : Bool :=
  !(strLtChars b.data a.data)

/-- Python `str.upper()` on one character (the search values are ASCII). -/
def pyUpperChar (c : Char) : Char :=
  if 97 ≤ c.toNat ∧ c.toNat ≤ 122 then Char.ofNat (c.toNat - 32) else c

/-- Python `str.upper()`. -/
def pyUpper (s : String) : String :=
  ⟨s.data.map pyUpperChar⟩

/-- Insert an element into a sorted list after all elements that are `≤` it,
the stable insertion step. -/
def insertSorted (le : α → α → Bool) (a : α) : List α → List α
  | [] => [a]
  | b :: bs => if le b a then b :: insertSorted le a bs else a :: b :: bs

/-- Python `sorted(l, key, reverse)`: a stable sort; `reverse=True` behaves as if
each comparison were reversed, keeping the original order of equal keys. -/
def pySorted (le : α → α → Bool) (reverse : Bool) (l : List α) : List α :=
  let cmp := if reverse then (fun a b => le b a) else le
  l.foldl (fun acc a => insertSorted cmp a acc) []

/-- `getattr(obj, order_by)` comparison on mock entities: strings compare
lexicographically, priorities by enum ordinal. -/
def MockTodoEntity.field_le (ob : OrderBy) (a b : MockTodoEntity) : Bool :=
  match ob with
  | .title => strLe a.title b.title
  | .description => strLe a.description b.description
  | .status => strLe a.status b.status
  | .priority => decide (a.priority.ord ≤ b.priority.ord)

/-- `order_by` comparison on relational rows. -/
def TodoEntity.field_le (ob : OrderBy) (a b : TodoEntity) : Bool :=
  match ob with
  | .title => strLe a.title b.title
  | .description => strLe a.description b.description
  | .status => strLe a.status b.status
  | .priority => decide (a.priority.ord ≤ b.priority.ord)

/-- `MockTodoEntity.update(data)` with `data = todo_boundary.model_dump()`:
the dump carries every boundary field, `id` is popped, and each remaining
field is written with `setattr`. -/
def MockTodoEntity.update (e : MockTodoEntity) (b : TodoBoundary) : MockTodoEntity :=
  { e with title := b.title, description := b.description,
           status := b.status, priority := b.priority }

/-- `TodoEntity.update(data)`: identical to the mock entity's update. -/
def TodoEntity.update (e : TodoEntity) (b : TodoBoundary) : TodoEntity :=
  { e with title := b.title, description := b.description,
           status := b.status, priority := b.priority }

namespace MockTodoService

/-- `MockTodoService.get_all_todos`: slices `todo_dao[offset : offset+size]` out of
the raw stored list FIRST, then sorts the slice by the `order_by` key. -/
def get_all_todos (todo_dao : List MockTodoEntity) (q : Pagination) : List TodoBoundary :=
  (pySorted (MockTodoEntity.field_le q.order_by) q.desc
      ((todo_dao.drop q.offset).take q.size)).map TodoBoundary.from_entity

/-- `MockTodoService.get_todo_by_id`: `next(gen, None)` over the entities with a
matching id — the first match or `None`.  The method takes no pagination
parameter at all. -/
def get_todo_by_id (todo_dao : List MockTodoEntity) (attr_value : String) :
    Option TodoBoundary :=
  (todo_dao.find? (fun e => e.id == attr_value)).map TodoBoundary.from_entity

/-- `MockTodoService.get_todo_by_title`: filter on exact title equality, slice
`[offset : offset+size]`, then sort the slice. -/
def get_todo_by_title (todo_dao : List MockTodoEntity) (attr_value : String)
    (q : Pagination) : List TodoBoundary :=
  (pySorted (MockTodoEntity.field_le q.order_by) q.desc
      (((todo_dao.filter (fun e => e.title == attr_value)).drop q.offset).take q.size)).map
    TodoBoundary.from_entity

/-- `MockTodoService.get_todo_by_priority`: `Priority(attr_value.upper())`, raising
`ValueError` for an unknown value; then filter on the parsed priority, slice,
and sort the slice. -/
def get_todo_by_priority (todo_dao : List MockTodoEntity) (attr_value : String)
    (q : Pagination) : Except String (List TodoBoundary) :=
  match Priority.parse? (pyUpper attr_value) with
  | none => .error "Priority can only be \"low\", \"medium\", or \"high\"."
  | some p =>
    .ok ((pySorted (MockTodoEntity.field_le q.order_by) q.desc
        (((todo_dao.filter (fun e => e.priority == p)).drop q.offset).take q.size)).map
      TodoBoundary.from_entity)

/-- Mutating the entity found by `next(filter(...))` in place: replace the first
entity with the given id in the backing list. -/
def replaceFirstById (todo_dao : List MockTodoEntity) (todo_id : String)
    (e' : MockTodoEntity) : List MockTodoEntity :=
  match todo_dao with
  | [] => []
  | e :: rest =>
    if e.id == todo_id then e' :: rest else e :: replaceFirstById rest todo_id e'

/-- `MockTodoService.update_todo`: find the first entity with the id (`None` and no
mutation when absent), apply `update` with the boundary's full dump in place, and
return the updated boundary together with the mutated store. -/
def update_todo (todo_dao : List MockTodoEntity) (todo_id : String)
    (b : TodoBoundary) : Option TodoBoundary × List MockTodoEntity :=
  match todo_dao.find? (fun e => e.id == todo_id) with
  | none => (none, todo_dao)
  | some e =>
    let e' := e.update b
    (some (TodoBoundary.from_entity e'), replaceFirstById todo_dao todo_id e')

end MockTodoService

instance [DecidableEq ε] [DecidableEq α] : DecidableEq (Except ε α) := fun x y =>
  match x, y with
  | .ok a, .ok b =>
    if h : a = b then .isTrue (by rw [h]) else .isFalse (fun hc => h (Except.ok.inj hc))
  | .error a, .error b =>
    if h : a = b then .isTrue (by rw [h]) else .isFalse (fun hc => h (Except.error.inj hc))
  | .ok _, .error _ => .isFalse (fun hc => Except.noConfusion hc)
  | .error _, .ok _ => .isFalse (fun hc => Except.noConfusion hc)

/-- SQLAlchemy `one_or_none()` on the rows matched by a query: the unique row,
`none` when no row matches, and a `MultipleResultsFound` error otherwise. -/
def oneOrNone (l : List α) : Except String (Option α) :=
  match l with
  | [] => .ok none
  | [a] => .ok (some a)
  | _ => .error "MultipleResultsFound"

namespace TodoService

/-- `TodoService.get_all_todos`: `ORDER BY` over the whole table, then
`OFFSET`/`LIMIT`. -/
def get_all_todos (table : List TodoEntity) (q : Pagination) : List TodoBoundary :=
  (((pySorted (TodoEntity.field_le q.order_by) q.desc table).drop q.offset).take
      q.size).map TodoBoundary.fromTodoEntity

/-- `TodoService.get_todo_by_id(attr_value, *args)`: the `*args` swallow and discard
any pagination argument; `WHERE id = attr_value` then `one_or_none()`. -/
def get_todo_by_id (table : List TodoEntity) (attr_value : String) (_q : Pagination) :
    Except String (Option TodoBoundary) :=
  (oneOrNone (table.filter (fun e => e.id == attr_value))).map
    (Option.map TodoBoundary.fromTodoEntity)

/-- `TodoService.get_todo_by_title`: `WHERE title = attr_value`, `ORDER BY` over the
whole filtered set, then `OFFSET`/`LIMIT`. -/
def get_todo_by_title (table : List TodoEntity) (attr_value : String)
    (q : Pagination) : List TodoBoundary :=
  (((pySorted (TodoEntity.field_le q.order_by) q.desc
        (table.filter (fun e => e.title == attr_value))).drop q.offset).take
      q.size).map TodoBoundary.fromTodoEntity

/-- `TodoService.get_todo_by_priority`: `WHERE priority = attr_value` compares the
raw search string against the stored enum label — no `.upper()` normalisation and
no `ValueError` translation anywhere in the method — then sort and slice. -/
def get_todo_by_priority (table : List TodoEntity) (attr_value : String)
    (q : Pagination) : List TodoBoundary :=
  (((pySorted (TodoEntity.field_le q.order_by) q.desc
        (table.filter (fun e => e.priority.label == attr_value))).drop q.offset).take
      q.size).map TodoBoundary.fromTodoEntity

end TodoService

/-- `UserEntity` (`user_service/entities/user_entity.py`): the users table. -/
structure UserEntity where
  id : String
  username : String
  email : String
  first_name : String
  last_name : String
  hashed_password : String
deriving DecidableEq

/-- `UserBoundary` (`user_service/boundaries/user_boundary.py`): the registration
payload, carrying the raw password. -/
structure UserBoundary where
  id : String := ""
  username : String
  email : String := ""
  first_name : String
  last_name : String
  password : String
deriving DecidableEq

/-- `UserFilteredBoundary` (`user_service/boundaries/user_response.py`): the
response view; `password` is declared `Optional` with `exclude=True`, so it is
never serialized and `from_entity` always sets it to `None`. -/
structure UserFilteredBoundary where
  id : String
  username : String
  email : String
  first_name : String
  last_name : String
  password : Option String
deriving DecidableEq

/-- `UserFilteredBoundary.from_entity`: copies the entity's non-password fields
and sets `password=None`. -/
def UserFilteredBoundary.from_entity (u : UserEntity) : UserFilteredBoundary :=
  ⟨u.id, u.username, u.email, u.first_name, u.last_name, none⟩

/-- Modelled from the spec: `user_service/boundaries/user_login.py` is not under
`src/`.  The login boundary carries a username and a raw password. -/
structure UserLogin where
  username : String
  password : String
deriving DecidableEq

/-- `OAuth2PasswordRequestForm` as consumed by `form_login`: only its `username`
and `password` fields are read. -/
structure OAuth2Form where
  username : String
  password : String
deriving DecidableEq

/-- `UserEntity.from_boundary`: copies the identity fields and stores
`crypto_ctx.hash(password)`; the fresh row id is the generated uuid default.
The hashing function itself (`common/utils/crypt_context.py` is not under
`src/`) is passed as a parameter. -/
def UserEntity.from_boundary (hash : String → String) (newId : String)
    (b : UserBoundary) : UserEntity :=
  ⟨newId, b.username, b.email, b.first_name, b.last_name, hash b.password⟩

/-- Token claims: `sub` plus the absolute expiry `exp`
(`common/utils/token_generator.py` builds `{**data, 'exp': now + ttl}`). -/
structure TokenClaims where
  sub : String
  exp : Int
deriving DecidableEq

/-- Modelled from the spec: the JWT produced by the external `jose` library is an
opaque signed string; it is modelled as the claim set plus a signature computed
from the claims with the process-wide secret. -/
structure Jwt where
  claims : TokenClaims
  sig : Nat
deriving DecidableEq

/-- Modelled from the spec: the signing primitive of the external `jose` library
(secret key and algorithm are opaque configuration).  Any deterministic keyed
function of the claims realises the codec contract; a token is well-signed
exactly when its `sig` equals this value. -/
def sign (secret : Nat) (c : TokenClaims) : Nat :=
  secret + 31 * c.sub.length + 7 * c.exp.natAbs + (if c.exp < 0 then 1 else 0)

/-- `create_access_token(data, expire_min=30)`: claims = data plus
`exp = now + expire_min minutes`, signed with the configured secret.  Time is
wall-clock UTC in seconds. -/
def create_access_token (secret : Nat) (now : Int) (sub : String)
    (expire_min : Int := 30) : Jwt :=
  let claims : TokenClaims := ⟨sub, now + expire_min * 60⟩
  ⟨claims, sign secret claims⟩

/-- The two distinct decode failures of the token codec. -/
inductive DecodeError where
  | TokenInvalid
  | TokenExpired
deriving DecidableEq

/-- `decode_access_token(token)`: `jwt.decode` verifies the signature first
(failure: `TokenInvalid`, i.e. `JWTError`), then the expiry with `now ≥ exp`
semantics (failure: `TokenExpired`, i.e. `ExpiredSignatureError`), and returns
the claims otherwise.  Modelled from the spec for the library internals: the
spec fixes `≥` expiry semantics and the two distinct failures. -/
def decode_access_token (secret : Nat) (now : Int) (t : Jwt) :
    Except DecodeError TokenClaims :=
  if t.sig ≠ sign secret t.claims then .error .TokenInvalid
  else if now ≥ t.claims.exp then .error .TokenExpired
  else .ok t.claims

namespace UserService

/-- `UserService.login`: `WHERE username = ...` then `one_or_none()`; `None` when
the user is absent or `crypto_ctx.verify(password, hashed_password)` fails;
otherwise `create_access_token({'sub': username})` with the default 30-minute
ttl.  `verify` is the parameterised password hasher
(`common/utils/crypt_context.py` is not under `src/`). -/
def login (verify : String → String → Bool) (secret : Nat) (now : Int)
    (db : List UserEntity) (l : UserLogin) : Except String (Option Jwt) :=
  match oneOrNone (db.filter (fun u => u.username == l.username)) with
  | .error e => .error e
  | .ok none => .ok none
  | .ok (some u) =>
    if verify l.password u.hashed_password then
      .ok (some (create_access_token secret now u.username))
    else
      .ok none

/-- `UserService.register`: build the entity via `from_boundary` (hashing the
password), add and commit it, and return the filtered view. -/
def register (hash : String → String) (newId : String) (db : List UserEntity)
    (b : UserBoundary) : UserFilteredBoundary × List UserEntity :=
  let u := UserEntity.from_boundary hash newId b
  (UserFilteredBoundary.from_entity u, db ++ [u])

end UserService

/-- `Token` (`common/models/token.py` is not under `src/`; modelled from the spec:
the response model wrapping the access token string). -/
structure Token where
  access_token : Jwt
deriving DecidableEq

namespace UserController

/-- The `POST /auth/login` endpoint: a `None` from the service becomes
`HTTPException(401, "Invalid username or password")`; a raised
`MultipleResultsFound` propagates as a server error. -/
def login (verify : String → String → Bool) (secret : Nat) (now : Int)
    (db : List UserEntity) (l : UserLogin) : Except (Nat × String) Token :=
  match UserService.login verify secret now db l with
  | .error e => .error (500, e)
  | .ok none => .error (401, "Invalid username or password")
  | .ok (some t) => .ok ⟨t⟩

/-- The `POST /auth/login/form` endpoint: builds
`UserLogin(username=form.username, password=form.password)` and calls the JSON
`login` endpoint function with it. -/
def form_login (verify : String → String → Bool) (secret : Nat) (now : Int)
    (db : List UserEntity) (form : OAuth2Form) : Except (Nat × String) Token :=
  login verify secret now db ⟨form.username, form.password⟩

end UserController

/-- The default pagination (`page=1`, `size=10`, `order_by="title"`, `desc=False`). -/
def defaultPagination : Pagination := {}

/-- Two stored tasks whose titles are in reverse lexical order: storage order b, a. -/
def exListDao : List MockTodoEntity :=
  [⟨"1", "b", "", "Pending", .LOW⟩, ⟨"2", "a", "", "Pending", .LOW⟩]

/-- The same two rows in the relational table. -/
def exListTable : List TodoEntity :=
  [⟨"1", "b", "", "Pending", .LOW⟩, ⟨"2", "a", "", "Pending", .LOW⟩]

/-- Two stored tasks sharing the title "t", with statuses in reverse lexical order. -/
def exTitleDao : List MockTodoEntity :=
  [⟨"1", "t", "", "b", .LOW⟩, ⟨"2", "t", "", "a", .LOW⟩]

/-- The same two rows in the relational table. -/
def exTitleTable : List TodoEntity :=
  [⟨"1", "t", "", "b", .LOW⟩, ⟨"2", "t", "", "a", .LOW⟩]

/-- A single HIGH-priority stored task. -/
def exPrioDao : List MockTodoEntity :=
  [⟨"1", "t", "", "Pending", .HIGH⟩]

/-- The same row in the relational table. -/
def exPrioTable : List TodoEntity :=
  [⟨"1", "t", "", "Pending", .HIGH⟩]

/-- A stored task whose description, status and priority differ from the
boundary defaults. -/
def exUpdDao : List MockTodoEntity :=
  [⟨"1", "old", "d", "Done", .HIGH⟩]

/-- An update payload that sets `title` to "X" and leaves every other boundary
field at its pydantic default (`description=""`, `status="Pending"`,
`priority=LOW`) — the dump a client sending only a new title produces. -/
def exUpdPayload : TodoBoundary :=
  ⟨"1", "X", "", "Pending", .LOW⟩

/- ------------------------------------------------------------------ -/
/- Helper lemmas                                                       -/
/- ------------------------------------------------------------------ -/

theorem find?_eq_head?_filter (p : α → Bool) (l : List α) :
    l.find? p = (l.filter p).head? := by
  induction l with
  | nil => rfl
  | cons x xs ih =>
    rw [List.find?_cons, List.filter_cons]
    cases h : p x
    · exact ih
    · rfl

theorem filter_eq_singleton_of_nodup_key (f : α → String) (v : String) :
    ∀ (l : List α), (l.map f).Nodup → ∀ e ∈ l, f e = v →
      l.filter (fun x => f x == v) = [e] := by
  intro l
  induction l with
  | nil => intro _ e he _; simp at he
  | cons x xs ih =>
    intro hn e he hv
    have hx : f x ∉ xs.map f := (List.nodup_cons.mp hn).1
    have hn' : (xs.map f).Nodup := (List.nodup_cons.mp hn).2
    rcases List.mem_cons.mp he with he | he
    · subst he
      have hnone : xs.filter (fun y => f y == v) = [] := by
        rw [List.filter_eq_nil_iff]
        intro a ha hfa
        have hae : f a = f e := (eq_of_beq hfa).trans hv.symm
        exact hx (by rw [← hae]; exact List.mem_map_of_mem f ha)
      rw [List.filter_cons_of_pos (by simp [hv]), hnone]
    · have hne : ¬ ((f x == v) = true) := by
        simp only [beq_iff_eq]
        intro hfx
        exact hx (by rw [hfx, ← hv]; exact List.mem_map_of_mem f he)
      rw [List.filter_cons, if_neg hne]
      exact ih hn' e he hv

theorem replaceFirstById_map_id (todo_id : String) (e e' : MockTodoEntity)
    (hid : e'.id = e.id) :
    ∀ (dao : List MockTodoEntity),
      dao.find? (fun x => x.id == todo_id) = some e →
        (MockTodoService.replaceFirstById dao todo_id e').map (fun x => x.id)
          = dao.map (fun x => x.id) := by
  intro dao
  induction dao with
  | nil => intro h; simp at h
  | cons x xs ih =>
    intro hfind
    rw [List.find?_cons] at hfind
    by_cases hx : (x.id == todo_id) = true
    · simp only [hx] at hfind
      have hex : x = e := by injection hfind
      subst hex
      simp [MockTodoService.replaceFirstById, hx, hid]
    · simp only [Bool.not_eq_true] at hx
      simp only [hx] at hfind
      simp [MockTodoService.replaceFirstById, hx, ih hfind]

/- ------------------------------------------------------------------ -/
/- Claim theorems                                                      -/
/- ------------------------------------------------------------------ -/

/-- C1: the claim says that for valid pagination each page of `get_all_todos` has
at most `size` records and the concatenation of all pages is the full collection
sorted by the `order_by` field.  The mock implementation slices the raw stored
list before sorting, so each page is cut from storage order and only sorted
locally: with two stored tasks titled "b", "a" and `size=1`, page 1 is the "b"
task and page 2 the "a" task, so the concatenation is not the sorted collection
— while the durable implementation, which sorts the whole table before
`OFFSET`/`LIMIT`, does reconstruct it. -/
theorem mock_get_all_todos_sorts_after_slicing :
    MockTodoService.get_all_todos exListDao ⟨1, 1, .title, false⟩
        = [⟨"1", "b", "", "Pending", .LOW⟩]
    ∧ MockTodoService.get_all_todos exListDao ⟨2, 1, .title, false⟩
        = [⟨"2", "a", "", "Pending", .LOW⟩]
    ∧ (pySorted (MockTodoEntity.field_le .title) false exListDao).map
          TodoBoundary.from_entity
        = [⟨"2", "a", "", "Pending", .LOW⟩, ⟨"1", "b", "", "Pending", .LOW⟩]
    ∧ MockTodoService.get_all_todos exListDao ⟨1, 1, .title, false⟩ ++
          MockTodoService.get_all_todos exListDao ⟨2, 1, .title, false⟩
        ≠ (pySorted (MockTodoEntity.field_le .title) false exListDao).map
            TodoBoundary.from_entity
    ∧ TodoService.get_all_todos exListTable ⟨1, 1, .title, false⟩ ++
          TodoService.get_all_todos exListTable ⟨2, 1, .title, false⟩
        = (pySorted (TodoEntity.field_le .title) false exListTable).map
            TodoBoundary.fromTodoEntity := by
  decide

/-- C2: the claim says the mock and durable filtered searches return the same
records in the same order with the same page boundaries, with sorting applied to
the full filtered set before the slice in both.  With two stored tasks sharing
title "t" whose statuses are "b", "a" (storage order), `order_by=status`,
`size=1`, `page=1`: the mock slices the filtered set before sorting and returns
the "b"-status task, the durable service sorts first and returns the "a"-status
task — different records on the same page. -/
theorem title_search_mock_durable_disagree :
    MockTodoService.get_todo_by_title exTitleDao "t" ⟨1, 1, .status, false⟩
        = [⟨"1", "t", "", "b", .LOW⟩]
    ∧ TodoService.get_todo_by_title exTitleTable "t" ⟨1, 1, .status, false⟩
        = [⟨"2", "t", "", "a", .LOW⟩]
    ∧ MockTodoService.get_todo_by_title exTitleDao "t" ⟨1, 1, .status, false⟩
        ≠ TodoService.get_todo_by_title exTitleTable "t" ⟨1, 1, .status, false⟩ := by
  decide

/-- C4: the claim says both implementations parse the search value
case-insensitively into the Priority enum and fail with `InvalidArgument` on an
unparseable value.  The mock does (`"high"` and `"HIGH"` agree, `"urgent"`
raises `ValueError`); the durable service compares the raw string against the
stored enum label with no normalisation, so `"high"` matches nothing while
`"HIGH"` matches, and `"urgent"` yields an empty page instead of an error. -/
theorem priority_search_durable_case_sensitive :
    MockTodoService.get_todo_by_priority exPrioDao "high" defaultPagination
        = .ok [⟨"1", "t", "", "Pending", .HIGH⟩]
    ∧ MockTodoService.get_todo_by_priority exPrioDao "HIGH" defaultPagination
        = MockTodoService.get_todo_by_priority exPrioDao "high" defaultPagination
    ∧ MockTodoService.get_todo_by_priority exPrioDao "urgent" defaultPagination
        = .error "Priority can only be \"low\", \"medium\", or \"high\"."
    ∧ MockTodoService.get_todo_by_priority exPrioDao "medium" defaultPagination
        = .ok []
    ∧ TodoService.get_todo_by_priority exPrioTable "HIGH" defaultPagination
        = [⟨"1", "t", "", "Pending", .HIGH⟩]
    ∧ TodoService.get_todo_by_priority exPrioTable "high" defaultPagination = []
    ∧ TodoService.get_todo_by_priority exPrioTable "urgent" defaultPagination = [] := by
  decide

/-- C5 counterexample: updating a stored task (description "d", status "Done",
priority HIGH) with a payload whose title is "X" and whose other fields are the
boundary defaults changes the stored description, status and priority as well —
refuting the claim that only `title` changes. -/
theorem update_title_payload_overwrites_other_fields :
    (MockTodoService.update_todo exUpdDao "1" exUpdPayload).snd.map (fun e => e.status)
        ≠ exUpdDao.map (fun e => e.status)
    ∧ (MockTodoService.update_todo exUpdDao "1" exUpdPayload).snd.map (fun e => e.priority)
        ≠ exUpdDao.map (fun e => e.priority)
    ∧ (MockTodoService.update_todo exUpdDao "1" exUpdPayload).snd.map (fun e => e.description)
        ≠ exUpdDao.map (fun e => e.description)
    ∧ (MockTodoService.update_todo exUpdDao "1" exUpdPayload).snd
        = [⟨"1", "X", "", "Pending", .LOW⟩] := by
  decide

/-- C3: search by ID returns the same outcome under any two pagination parameter
sets — the durable implementation discards its `*args` and the mock method takes
no pagination parameter at all — and that outcome is the single stored task
whose id matches (under the store's primary-key uniqueness), otherwise none. -/
theorem get_todo_by_id_ignores_pagination
    (table : List TodoEntity) (dao : List MockTodoEntity) (v : String)
    (q1 q2 : Pagination) :
    (TodoService.get_todo_by_id table v q1 = TodoService.get_todo_by_id table v q2)
    ∧ ((table.map (fun e => e.id)).Nodup → ∀ e ∈ table, e.id = v →
        TodoService.get_todo_by_id table v q1
          = .ok (some (TodoBoundary.fromTodoEntity e)))
    ∧ ((∀ e ∈ table, e.id ≠ v) →
        TodoService.get_todo_by_id table v q1 = .ok none)
    ∧ ((dao.map (fun e => e.id)).Nodup → ∀ e ∈ dao, e.id = v →
        MockTodoService.get_todo_by_id dao v = some (TodoBoundary.from_entity e))
    ∧ ((∀ e ∈ dao, e.id ≠ v) →
        MockTodoService.get_todo_by_id dao v = none) := by
  refine ⟨rfl, ?_, ?_, ?_, ?_⟩
  · intro hn e he hv
    unfold TodoService.get_todo_by_id
    rw [filter_eq_singleton_of_nodup_key (fun e => e.id) v table hn e he hv]
    rfl
  · intro h
    unfold TodoService.get_todo_by_id
    rw [List.filter_eq_nil_iff.mpr (fun a ha => by simpa using h a ha)]
    rfl
  · intro hn e he hv
    unfold MockTodoService.get_todo_by_id
    rw [find?_eq_head?_filter,
      filter_eq_singleton_of_nodup_key (fun e => e.id) v dao hn e he hv]
    rfl
  · intro h
    unfold MockTodoService.get_todo_by_id
    rw [List.find?_eq_none.mpr (fun a ha => by simpa using h a ha)]
    rfl

/-- Witness for C3 at a concrete store and two very different paginations. -/
theorem get_todo_by_id_ignores_pagination_witness :
    TodoService.get_todo_by_id exPrioTable "1" ⟨1, 1, .title, false⟩
        = .ok (some ⟨"1", "t", "", "Pending", .HIGH⟩)
    ∧ TodoService.get_todo_by_id exPrioTable "1" ⟨1, 1, .title, false⟩
        = TodoService.get_todo_by_id exPrioTable "1" ⟨99, 999, .status, true⟩ :=
  ⟨(get_todo_by_id_ignores_pagination exPrioTable exPrioDao "1"
      ⟨1, 1, .title, false⟩ ⟨99, 999, .status, true⟩).2.1 (by decide)
      ⟨"1", "t", "", "Pending", .HIGH⟩ (by decide) (by decide),
   (get_todo_by_id_ignores_pagination exPrioTable exPrioDao "1"
      ⟨1, 1, .title, false⟩ ⟨99, 999, .status, true⟩).1⟩

/-- C5 (amended): `update_todo` overwrites title, description, status and
priority with the payload's values, keeping the stored id; the non-title fields
stay unchanged exactly when the payload carries the stored values for them. -/
theorem update_todo_overwrites_all_payload_fields
    (dao : List MockTodoEntity) (todo_id : String) (b : TodoBoundary)
    (e : MockTodoEntity)
    (h : dao.find? (fun x => x.id == todo_id) = some e) :
    (MockTodoService.update_todo dao todo_id b).fst
        = some ⟨e.id, b.title, b.description, b.status, b.priority⟩
    ∧ (b.description = e.description → b.status = e.status →
        b.priority = e.priority → e.update b = { e with title := b.title }) := by
  constructor
  · unfold MockTodoService.update_todo
    rw [h]
    rfl
  · intro h1 h2 h3
    unfold MockTodoEntity.update
    rw [h1, h2, h3]

/-- Witness for the amended C5: the payload's title lands in the store. -/
theorem update_todo_overwrites_all_payload_fields_witness :
    (MockTodoService.update_todo exUpdDao "1" exUpdPayload).fst
      = some ⟨"1", "X", "", "Pending", .LOW⟩ :=
  (update_todo_overwrites_all_payload_fields exUpdDao "1" exUpdPayload
    ⟨"1", "old", "d", "Done", .HIGH⟩ (by decide)).1

/-- C6: `update_todo` never changes any stored id — the ids of the whole store
are untouched even when the payload carries an id — every payload field except
id is overwritten, and an absent target id yields `None` with no mutation.
The relational entity's `update` behaves identically field by field. -/
theorem update_todo_never_changes_id
    (dao : List MockTodoEntity) (todo_id : String) (b : TodoBoundary) :
    ((MockTodoService.update_todo dao todo_id b).snd.map (fun e => e.id)
        = dao.map (fun e => e.id))
    ∧ (dao.find? (fun x => x.id == todo_id) = none →
        MockTodoService.update_todo dao todo_id b = (none, dao))
    ∧ (∀ e, dao.find? (fun x => x.id == todo_id) = some e →
        (MockTodoService.update_todo dao todo_id b).fst
          = some ⟨e.id, b.title, b.description, b.status, b.priority⟩)
    ∧ (∀ e : TodoEntity, (e.update b).id = e.id ∧ (e.update b).title = b.title
        ∧ (e.update b).description = b.description
        ∧ (e.update b).status = b.status ∧ (e.update b).priority = b.priority) := by
  refine ⟨?_, ?_, ?_, fun e => ⟨rfl, rfl, rfl, rfl, rfl⟩⟩
  · cases hfind : dao.find? (fun x => x.id == todo_id) with
    | none =>
      unfold MockTodoService.update_todo
      rw [hfind]
    | some e =>
      unfold MockTodoService.update_todo
      rw [hfind]
      exact replaceFirstById_map_id todo_id e (e.update b) rfl dao hfind
  · intro h
    unfold MockTodoService.update_todo
    rw [h]
  · intro e h
    unfold MockTodoService.update_todo
    rw [h]
    rfl

/-- Witness for C6: an absent id mutates nothing, and a payload carrying a
different id does not change the stored id. -/
theorem update_todo_never_changes_id_witness :
    MockTodoService.update_todo exUpdDao "zzz" exUpdPayload = (none, exUpdDao)
    ∧ (MockTodoService.update_todo exUpdDao "1"
          ⟨"other-id", "X", "", "Pending", .LOW⟩).fst
        = some ⟨"1", "X", "", "Pending", .LOW⟩ :=
  ⟨(update_todo_never_changes_id exUpdDao "zzz" exUpdPayload).2.1 (by decide),
   (update_todo_never_changes_id exUpdDao "1"
      ⟨"other-id", "X", "", "Pending", .LOW⟩).2.2.1
      ⟨"1", "old", "d", "Done", .HIGH⟩ (by decide)⟩

/-- C7: an unknown username and a known username with a failing password
verification both make `login` return `None`, and through the controller both
surface as the identical 401 "Invalid username or password" — no distinguishing
signal reaches the caller. -/
theorem login_failures_indistinguishable
    (verify : String → String → Bool) (secret : Nat) (now : Int)
    (db : List UserEntity) (l1 l2 : UserLogin) (u : UserEntity)
    (h1 : ∀ x ∈ db, x.username ≠ l1.username)
    (h2 : db.filter (fun x => x.username == l2.username) = [u])
    (h3 : verify l2.password u.hashed_password = false) :
    UserService.login verify secret now db l1 = .ok none
    ∧ UserService.login verify secret now db l2 = .ok none
    ∧ UserController.login verify secret now db l1
        = .error (401, "Invalid username or password")
    ∧ UserController.login verify secret now db l1
        = UserController.login verify secret now db l2 := by
  have hl1 : UserService.login verify secret now db l1 = .ok none := by
    unfold UserService.login
    rw [List.filter_eq_nil_iff.mpr (fun a ha => by simpa using h1 a ha)]
    rfl
  have hl2 : UserService.login verify secret now db l2 = .ok none := by
    unfold UserService.login
    rw [h2]
    simp [oneOrNone, h3]
  refine ⟨hl1, hl2, ?_, ?_⟩
  · unfold UserController.login
    rw [hl1]
  · unfold UserController.login
    rw [hl1, hl2]

/-- A concrete verifier for the login witness: verification succeeds only when
the stored hash is the tagged raw password. -/
def exVerify : String → String → Bool :=
  fun p h => h == "HASHED:" ++ p

/-- A user store holding alice with a hash that verifies only "secret1". -/
def exUsersDb : List UserEntity :=
  [⟨"u1", "alice", "alice@mail.com", "Alice", "A", "HASHED:secret1"⟩]

/-- Witness for C7: the spec's own failing pair of logins coincide. -/
theorem login_failures_indistinguishable_witness :
    UserController.login exVerify 0 0 exUsersDb ⟨"nosuchuser", "anything"⟩
      = UserController.login exVerify 0 0 exUsersDb ⟨"alice", "wrongpass"⟩ :=
  (login_failures_indistinguishable exVerify 0 0 exUsersDb
      ⟨"nosuchuser", "anything"⟩ ⟨"alice", "wrongpass"⟩
      ⟨"u1", "alice", "alice@mail.com", "Alice", "A", "HASHED:secret1"⟩
      (by decide) (by decide) (by decide)).2.2.2

/-- C8: a token minted with a ttl of 0 minutes decodes to `TokenExpired` at any
time strictly after issuance (`now ≥ exp` semantics), a token whose signature
was tampered with decodes to `TokenInvalid`, and the two failures are distinct
values, so the caller of decode can tell them apart. -/
theorem token_ttl_zero_expired_tampered_invalid
    (secret : Nat) (t0 t1 : Int) (sub : String) (h : t0 < t1) :
    decode_access_token secret t1 (create_access_token secret t0 sub 0)
        = .error .TokenExpired
    ∧ decode_access_token secret t1
        ⟨(create_access_token secret t0 sub 0).claims,
          (create_access_token secret t0 sub 0).sig + 1⟩
        = .error .TokenInvalid
    ∧ DecodeError.TokenExpired ≠ DecodeError.TokenInvalid := by
  refine ⟨?_, ?_, by intro hc; cases hc⟩
  · simp [decode_access_token, create_access_token, h.le]
  · simp [decode_access_token, create_access_token]

/-- Witness for C8 at concrete times 0 (issue) and 1 (decode). -/
theorem token_ttl_zero_expired_tampered_invalid_witness :
    decode_access_token 7 1 (create_access_token 7 0 "alice" 0)
        = .error .TokenExpired
    ∧ decode_access_token 7 1
        ⟨(create_access_token 7 0 "alice" 0).claims,
          (create_access_token 7 0 "alice" 0).sig + 1⟩
        = .error .TokenInvalid :=
  ⟨(token_ttl_zero_expired_tampered_invalid 7 0 1 "alice" (by decide)).1,
   (token_ttl_zero_expired_tampered_invalid 7 0 1 "alice" (by decide)).2.1⟩

/-- C9: registration stores exactly the `PasswordHasher` output in
`hashed_password` — never the raw password, as long as the hasher is not the
identity on it — and the returned view's password is `None` (the field is
excluded from serialization). -/
theorem register_persists_only_hashed_password
    (hash : String → String) (newId : String) (db : List UserEntity)
    (b : UserBoundary) :
    (UserService.register hash newId db b).snd
        = db ++ [⟨newId, b.username, b.email, b.first_name, b.last_name,
            hash b.password⟩]
    ∧ (UserService.register hash newId db b).fst.password = none
    ∧ (UserEntity.from_boundary hash newId b).hashed_password = hash b.password
    ∧ (hash b.password ≠ b.password →
        (UserEntity.from_boundary hash newId b).hashed_password ≠ b.password) :=
  ⟨rfl, rfl, rfl, fun h => h⟩

/-- Witness for C9 with a concrete (non-identity) hasher. -/
theorem register_persists_only_hashed_password_witness :
    (UserService.register (fun s => "$2b$" ++ s) "u9" []
        ⟨"", "bob", "bob@mail.com", "Bob", "B", "pw123"⟩).fst.password = none
    ∧ (UserEntity.from_boundary (fun s => "$2b$" ++ s) "u9"
        ⟨"", "bob", "bob@mail.com", "Bob", "B", "pw123"⟩).hashed_password
        ≠ "pw123" :=
  ⟨(register_persists_only_hashed_password (fun s => "$2b$" ++ s) "u9" []
      ⟨"", "bob", "bob@mail.com", "Bob", "B", "pw123"⟩).2.1,
   (register_persists_only_hashed_password (fun s => "$2b$" ++ s) "u9" []
      ⟨"", "bob", "bob@mail.com", "Bob", "B", "pw123"⟩).2.2.2 (by decide)⟩

/-- C10: the form-encoded login endpoint builds a `UserLogin` from the form's
username and password and delegates to the JSON login endpoint, so for every
store, verifier and credential pair the two endpoints produce identical
outcomes: the same token on success and the same failure signal otherwise. -/
theorem form_login_delegates_to_json_login
    (verify : String → String → Bool) (secret : Nat) (now : Int)
    (db : List UserEntity) (f : OAuth2Form) :
    UserController.form_login verify secret now db f
      = UserController.login verify secret now db ⟨f.username, f.password⟩ := rfl

end SimpleTodoApp
